import Mathlib

/-!
# Verification of `backend/app.py` (AI Presentation Builder)

A shallow embedding of the pure/observable behaviour of the Flask backend in
`src/backend/app.py`, together with theorems settling the specification
claims about it.

Modelling conventions:
* Python strings are modelled as `List Char` in the text-processing helpers
  (`process_titles`, `process_bullet_points`, ...), and as `String` for the
  small form-field values handled by the route.
* Calls to external services (Gemini text generation, Stability image
  generation, the HTTP layer) are modelled by explicit oracle parameters:
  an `Except`/`Option` value describing the outcome of the call.  The
  Python `try/except` blocks become `match`es on these oracles.
* `request.form.get(k)` / `request.files.get(k)` yield `Option` values;
  Python truthiness of an optional string is `getD "" ≠ ""`.
-/

set_option autoImplicit false

namespace AIPresentation

/-! ## Python string primitives -/

/-- The whitespace characters stripped by Python's `str.strip()` and matched
by `\s` in the regexes of the file (space, tab, newline, CR, VT, FF). -/
def isPySpace (c : Char) : Bool :=
  c == ' ' || c == '\t' || c == '\n' || c == '\r' ||
  c == Char.ofNat 11 || c == Char.ofNat 12

/-- Leading part of Python `str.strip()`. -/
def stripLead (l : List Char) : List Char := l.dropWhile isPySpace

/-- Trailing part of Python `str.strip()`, written structurally. -/
def stripTrail : List Char → List Char
  | [] => []
  | c :: cs =>
    let t := stripTrail cs
    if t.isEmpty then (if isPySpace c then [] else [c]) else c :: t

/-- Python `str.strip()`. -/
def pyStrip (l : List Char) : List Char := stripTrail (stripLead l)

/-- Prepend a character to the first piece of a split (helper for
`splitOnNl`). -/
def consHead (c : Char) : List (List Char) → List (List Char)
  | [] => [[c]]
  | l :: ls => (c :: l) :: ls

/-- Python `text.split('\n')`: always returns at least one (possibly empty)
piece; a trailing separator yields a trailing empty piece. -/
def splitOnNl : List Char → List (List Char)
  | [] => [[]]
  | c :: cs =>
    if c = '\n' then [] :: splitOnNl cs
    else consHead c (splitOnNl cs)

/-- Python `'\n'.join(pieces)`. -/
def joinNl : List (List Char) → List Char
  | [] => []
  | [l] => l
  | l :: l' :: ls => l ++ '\n' :: joinNl (l' :: ls)

/-- `leadsWith n l` holds when `n` begins `l`. -/
def leadsWith : List Char → List Char → Bool
  | [], _ => true
  | _ :: _, [] => false
  | a :: as, b :: bs => a == b && leadsWith as bs

/-- Python `needle in hay` on strings (substring containment). -/
def containsSub (n : List Char) : List Char → Bool
  | [] => n.isEmpty
  | c :: cs => leadsWith n (c :: cs) || containsSub n cs

/-- Python `str.lower()` restricted to the ASCII range used by the app. -/
def lowerChars (l : List Char) : List Char := l.map Char.toLower

/-! ## Theme registry (`THEMES`, app.py lines 38-71) -/

/-- `pptx.dml.color.RGBColor`. -/
structure RGB where
  r : Nat
  g : Nat
  b : Nat
deriving DecidableEq, Repr

/-- One entry of the `THEMES` dictionary. -/
structure Theme where
  gradient_start : RGB
  gradient_end : RGB
  title_color : RGB
  text_color : RGB
  font_name : String
  shadow : Bool
deriving DecidableEq, Repr

/-- `THEMES["corporate"]`. -/
def corporateTheme : Theme :=
  { gradient_start := ⟨0, 51, 102⟩
    gradient_end := ⟨173, 216, 230⟩
    title_color := ⟨255, 255, 255⟩
    text_color := ⟨255, 255, 255⟩
    font_name := "Arial"
    shadow := true }

/-- `THEMES["creative"]`. -/
def creativeTheme : Theme :=
  { gradient_start := ⟨147, 112, 219⟩
    gradient_end := ⟨255, 182, 193⟩
    title_color := ⟨255, 255, 255⟩
    text_color := ⟨240, 240, 240⟩
    font_name := "Montserrat"
    shadow := true }

/-- `THEMES["minimal"]`. -/
def minimalTheme : Theme :=
  { gradient_start := ⟨245, 245, 245⟩
    gradient_end := ⟨255, 255, 255⟩
    title_color := ⟨33, 33, 33⟩
    text_color := ⟨66, 66, 66⟩
    font_name := "Helvetica"
    shadow := false }

/-- `THEMES["bold"]`. -/
def boldTheme : Theme :=
  { gradient_start := ⟨255, 69, 0⟩
    gradient_end := ⟨255, 215, 0⟩
    title_color := ⟨255, 255, 255⟩
    text_color := ⟨255, 255, 255⟩
    font_name := "Impact"
    shadow := true }

/-- The `THEMES` dictionary as a lookup function. -/
def THEMES (k : String) : Option Theme :=
  if k = "corporate" then some corporateTheme
  else if k = "creative" then some creativeTheme
  else if k = "minimal" then some minimalTheme
  else if k = "bold" then some boldTheme
  else none

/-- `THEMES.get(theme, THEMES["corporate"])` (app.py line 241). -/
def resolveTheme (k : String) : Theme := (THEMES k).getD corporateTheme

/-! ## Chart type mapping (`CHART_TYPES`, app.py lines 74-79) -/

/-- The members of `pptx.enum.chart.XL_CHART_TYPE` used by the app. -/
inductive XLChartType where
  | column_clustered
  | line
  | pie
  | xy_scatter
deriving DecidableEq, Repr

/-- The `CHART_TYPES` dictionary as a lookup function. -/
def CHART_TYPES (k : String) : Option XLChartType :=
  if k = "bar" then some .column_clustered
  else if k = "line" then some .line
  else if k = "pie" then some .pie
  else if k = "scatter" then some .xy_scatter
  else none

/-- `CHART_TYPES.get(chart_type, XL_CHART_TYPE.COLUMN_CLUSTERED)`
(app.py line 225, inside `generate_chart`). -/
def chart_type_enum (k : String) : XLChartType :=
  (CHART_TYPES k).getD .column_clustered

/-! ## Form-flag parsing (route `generate`, app.py lines 341-342) -/

/-- `request.form.get('includeImages', 'true') == 'true'`; the argument is
the raw form value, `none` when the field is absent. -/
def parse_include_images (v : Option String) : Bool :=
  (v.getD "true") == "true"

/-- `request.form.get('summarize', 'false') == 'true'`. -/
def parse_summarize (v : Option String) : Bool :=
  (v.getD "false") == "true"

/-! ## The `/generate` route (app.py lines 334-368) -/

/-- The body of the HTTP response produced by the route: either
`jsonify({"error": msg})` or `send_file(..., as_attachment=True,
download_name=...)`. -/
inductive RespBody where
  | jsonError (msg : String)
  | fileAttachment (downloadName : String)
deriving DecidableEq, Repr

/-- Observable outcome of one request: HTTP status, body, and whether
`create_presentation` was invoked while handling it. -/
structure GenResult where
  status : Nat
  body : RespBody
  deckAssembled : Bool
deriving DecidableEq, Repr

/-- The fields of the multipart form read by the route.  `none` models an
absent field/upload.  For the two uploads only presence matters at the
route level (their contents are consumed inside `create_presentation`). -/
structure GenRequest where
  topic : Option String
  textFilePresent : Bool
  csvFilePresent : Bool
  theme : Option String
  language : Option String
  includeImages : Option String
  summarize : Option String
  chartType : Option String
  exportFormat : Option String
deriving Repr

/-- Python truthiness of an optional string (`None` and `''` are falsy). -/
def optTruthy (v : Option String) : Bool := v.getD "" != ""

/-- Python `topic or 'presentation'`. -/
def pyOrStr (v : Option String) (d : String) : String :=
  if optTruthy v then v.getD "" else d

/-- The route handler `generate` (app.py lines 334-368).  `deck` is the
oracle for the outcome of the `create_presentation` call: `.ok path` when it
returns a file path, `.error msg` when it raises (the route's
`try/except` turns a raised exception into a 500 response).  The parsed
flags (`includeImages`, `summarize`, `theme`, `chartType`, `language`) are
only forwarded to `create_presentation`, which the oracle abstracts. -/
def generate (req : GenRequest) (deck : Except String String) : GenResult :=
  let export_format := req.exportFormat.getD "pptx"
  if !optTruthy req.topic && !req.textFilePresent then
    ⟨400, .jsonError "Topic or text file required", false⟩
  else
    match deck with
    | .error e => ⟨500, .jsonError e, true⟩
    | .ok _path =>
      if export_format = "pdf" then
        ⟨501, .jsonError "PDF export not implemented", true⟩
      else
        ⟨200, .fileAttachment (pyOrStr req.topic "presentation" ++ ".pptx"), true⟩

/-! ## Slide titles (`process_titles` lines 126-133,
`generate_slide_titles` lines 150-164) -/

/-- `process_titles` (lines 126-133): strip, split on newlines, keep the
stripped non-empty lines, take the first 3.  The `except` fallback
(returning `[text]`) is dead: the body is pure string manipulation. -/
def process_titles (text : List Char) : List (List Char) :=
  (((splitOnNl (pyStrip text)).map pyStrip).filter (fun l => !l.isEmpty)).take 3

/-- The placeholder appended by the padding loop on line 160:
`f"{content} Overview {len(titles) + 1}"`. -/
def overviewTitle (content : List Char) (n : Nat) : List Char :=
  content ++ " Overview ".data ++ (Nat.repr n).data

/-- A title of the failure triplet on line 164:
`f"{content} Slide {i+1}"`. -/
def slidePlaceholder (content : List Char) (n : Nat) : List Char :=
  content ++ " Slide ".data ++ (Nat.repr n).data

/-- The `while len(titles) < 3` padding loop (lines 159-160): each
iteration appends one placeholder, so at most 3 iterations ever run and
fuel 3 realises the loop exactly on every input. -/
def padTitles (content : List Char) : Nat → List (List Char) → List (List Char)
  | 0, ts => ts
  | fuel + 1, ts =>
    if ts.length < 3 then
      padTitles content fuel (ts ++ [overviewTitle content (ts.length + 1)])
    else ts

/-- `generate_slide_titles` (lines 150-164).  `up` is the oracle for the
Gemini call: `.ok text` is `response.text`, `.error e` a raised exception
(caught on line 162). -/
def generate_slide_titles (content : List Char)
    (up : Except String (List Char)) : List (List Char) :=
  match up with
  | .error _ =>
    [slidePlaceholder content 1, slidePlaceholder content 2,
     slidePlaceholder content 3]
  | .ok text =>
    let titles := process_titles (pyStrip text)
    (padTitles content 3 titles).take 3

/-! ## Bullet-point post-processing (`process_bullet_points`, lines 135-148) -/

/-- The characters removed everywhere by `re.sub(r'[\*\[\]]', '', line)`. -/
def isBracketStar (c : Char) : Bool := c == '*' || c == '[' || c == ']'

/-- The character class of `re.sub(r'^[\d\.\-\s]+', '', line)`. -/
def isLeadJunk (c : Char) : Bool :=
  c.isDigit || c == '.' || c == '-' || isPySpace c

/-- The cleaning applied to one stripped non-empty line: remove `*`, `[`,
`]` everywhere, strip the leading run of digits/dots/dashes/whitespace,
then `strip()` again (the body of the loop on lines 139-144, after the
`'- ' +` prefix is factored out). -/
def cleanBullet (s : List Char) : List Char :=
  pyStrip ((s.filter (fun c => !isBracketStar c)).dropWhile isLeadJunk)

/-- One iteration of the loop in `process_bullet_points`: `none` when the
stripped line is empty (skipped), otherwise the cleaned `'- '`-prefixed
line that is appended. -/
def bulletLine (line : List Char) : Option (List Char) :=
  let s := pyStrip line
  if s.isEmpty then none else some ('-' :: ' ' :: cleanBullet s)

/-- `process_bullet_points` (lines 135-148).  The `try/except` cannot fire:
the body is pure string manipulation, so the `except` fallback is dead. -/
def process_bullet_points (text : List Char) : List Char :=
  joinNl ((splitOnNl text).filterMap bulletLine)

/-! ## Slide content generation (`generate_slide_content`, lines 166-187) -/

/-- Which prompt template (and `max_tokens`) `generate_slide_content`
selects. -/
inductive ContentMode where
  | summarizeTwoParas
  | twoParas
  | sixBullets
deriving DecidableEq, Repr

/-- The prompt selection of `generate_slide_content` (lines 168-176):
`summarize` is tested first, then `has_image`, else the bullet prompt. -/
def content_mode (has_image summarize : Bool) : ContentMode :=
  if summarize then .summarizeTwoParas
  else if has_image then .twoParas
  else .sixBullets

/-- `generate_slide_content` (lines 166-187).  `up` is the oracle for the
Gemini call: `.ok text` is `response.text`, `.error e` a raised exception
(caught on line 185, producing the failure string). -/
def generate_slide_content (has_image summarize : Bool)
    (up : Except String (List Char)) : List Char :=
  match up with
  | .error e => "Content generation failed: ".data ++ e.data
  | .ok text =>
    let content := pyStrip text
    if !has_image && !summarize then process_bullet_points content
    else content

/-! ## Image generation (`generate_image`, lines 189-217) -/

/-- The parts of the Stability HTTP response the code observes:
`response.text`, and the outcome of
`b64decode(response.json()["artifacts"][0]["base64"])` (`none` when any
exception occurs while decoding). -/
structure ImageHttpResponse where
  text : List Char
  decoded : Option (List Char)

/-- Oracle environment for one `generate_image` call: the
`STABILITY_API_KEY` environment variable, and the outcome of
`requests.post` + `raise_for_status` (`.error` when either raises). -/
structure ImageEnv where
  stabilityApiKey : Option String
  httpOutcome : Except String ImageHttpResponse

/-- The marker searched for in the lowercased response text (line 208). -/
def balanceMarker : List Char := "insufficient_balance".data

/-- `generate_image` (lines 189-217).  Every failure path returns `none`
(the whole call body is wrapped in `try/except` returning `None`), so the
function never raises to its caller. -/
def generate_image (env : ImageEnv) : Option (List Char) :=
  if env.stabilityApiKey.getD "" == "" then none
  else
    match env.httpOutcome with
    | .error _ => none
    | .ok r =>
      if containsSub balanceMarker (lowerChars r.text) then none
      else r.decoded

/-- The failure conditions enumerated by the specification for
`generate_image`: credential unset/empty, HTTP call failed, insufficient
balance signalled, or decoding failed. -/
def imageFailCond (env : ImageEnv) : Bool :=
  (env.stabilityApiKey.getD "" == "") ||
  (match env.httpOutcome with
   | .error _ => true
   | .ok r => containsSub balanceMarker (lowerChars r.text) || r.decoded.isNone)

/-! ## Content slides of `create_presentation` (lines 271-322) -/

/-- Observable shape of one content slide (loop body, lines 271-322):
the flags, the `content_width` local variable, where the body text went
(layout-1 placeholder vs. a manually added textbox and its width in
inches), and whether a picture/chart shape was added. -/
structure ContentSlide where
  title : List Char
  hasImage : Bool
  hasChart : Bool
  contentWidth : Nat
  usesPlaceholder : Bool
  textboxWidth : Option Nat
  imageAdded : Bool
  chartAdded : Bool
  text : List Char

/-- One iteration of the content-slide loop (lines 271-322) for index `i`
(Python `enumerate(slide_titles[1:], start=1)`).  Note that
`slide_layout == prs.slide_layouts[1]` holds exactly when
`i == 1 and include_images`, i.e. exactly `has_image`, so the branch
condition on line 291 reduces to `has_image`.  A picture is added (line
315) exactly when `generate_image` returns a stream (a `BytesIO` is always
truthy). -/
def buildContentSlide (include_images csvFilePresent summarize : Bool)
    (imgEnv : ImageEnv) (contentUp : Except String (List Char))
    (i : Nat) (title : List Char) : ContentSlide :=
  let has_image := decide (i = 1) && include_images
  let has_chart := csvFilePresent && decide (i = 2)
  let content_width := if has_image || has_chart then 5 else 9
  let content_text := generate_slide_content has_image summarize contentUp
  if has_image then
    { title
      hasImage := has_image
      hasChart := has_chart
      contentWidth := content_width
      usesPlaceholder := true
      textboxWidth := none
      imageAdded := (generate_image imgEnv).isSome
      chartAdded := has_chart
      text := content_text }
  else
    { title
      hasImage := has_image
      hasChart := has_chart
      contentWidth := content_width
      usesPlaceholder := false
      textboxWidth := some content_width
      imageAdded := false
      chartAdded := has_chart
      text := content_text }

/-- A concrete environment in which the image service credential is
absent. -/
def imgEnvNoKey : ImageEnv :=
  { stabilityApiKey := none, httpOutcome := .error "no call" }

/-- A concrete valid request asking for PDF export. -/
def pdfRequest : GenRequest :=
  { topic := some "AI"
    textFilePresent := false
    csvFilePresent := false
    theme := none
    language := none
    includeImages := none
    summarize := none
    chartType := none
    exportFormat := some "pdf" }

end AIPresentation

namespace AIPresentation

/-! ## Claim theorems: C5, C8, C9 -/

/-- C5: theme resolution always succeeds with no side effects, and for every
theme key not present in the registry the resolved theme has exactly the
"corporate" theme's field values (gradient start/end colors, title color,
text color, font name, shadow flag).  (`resolveTheme` is a pure total
function, so "always succeeds, no side effects" holds by construction.) -/
theorem resolveTheme_unknown_is_corporate (k : String)
    (h1 : k ≠ "corporate") (h2 : k ≠ "creative")
    (h3 : k ≠ "minimal") (h4 : k ≠ "bold") :
    (resolveTheme k).gradient_start = ⟨0, 51, 102⟩ ∧
    (resolveTheme k).gradient_end = ⟨173, 216, 230⟩ ∧
    (resolveTheme k).title_color = ⟨255, 255, 255⟩ ∧
    (resolveTheme k).text_color = ⟨255, 255, 255⟩ ∧
    (resolveTheme k).font_name = "Arial" ∧
    (resolveTheme k).shadow = true ∧
    resolveTheme k = corporateTheme := by
  simp [resolveTheme, THEMES, h1, h2, h3, h4, corporateTheme]

/-- Witness for C5 at the concrete unregistered key "neon". -/
theorem resolveTheme_unknown_is_corporate_witness :
    ("neon" ≠ "corporate" ∧ "neon" ≠ "creative" ∧
     "neon" ≠ "minimal" ∧ "neon" ≠ "bold") ∧
    resolveTheme "neon" = corporateTheme :=
  ⟨by decide,
   (resolveTheme_unknown_is_corporate "neon" (by decide) (by decide)
      (by decide) (by decide)).2.2.2.2.2.2⟩

/-- C8: the chart kind string is mapped to a concrete chart type by the fixed
table bar→clustered-column, line→line, pie→pie, scatter→XY-scatter, and every
other chart kind string maps to clustered-column. -/
theorem chart_type_table (k : String)
    (h1 : k ≠ "bar") (h2 : k ≠ "line") (h3 : k ≠ "pie") (h4 : k ≠ "scatter") :
    chart_type_enum "bar" = .column_clustered ∧
    chart_type_enum "line" = .line ∧
    chart_type_enum "pie" = .pie ∧
    chart_type_enum "scatter" = .xy_scatter ∧
    chart_type_enum k = .column_clustered := by
  refine ⟨rfl, rfl, rfl, rfl, ?_⟩
  simp [chart_type_enum, CHART_TYPES, h1, h2, h3, h4]

/-- Witness for C8 at the concrete unknown kind "area". -/
theorem chart_type_table_witness :
    ("area" ≠ "bar" ∧ "area" ≠ "line" ∧ "area" ≠ "pie" ∧ "area" ≠ "scatter") ∧
    chart_type_enum "area" = .column_clustered :=
  ⟨by decide,
   (chart_type_table "area" (by decide) (by decide) (by decide)
      (by decide)).2.2.2.2⟩

/-- C9: the `includeImages` and `summarize` form fields are true only by
exact string equality with the lowercase literal "true"; every other
supplied value gives false; an absent `includeImages` defaults to true and
an absent `summarize` defaults to false. -/
theorem flag_parsing_exact (s : String) (h : s ≠ "true") :
    parse_include_images (some s) = false ∧
    parse_summarize (some s) = false ∧
    parse_include_images none = true ∧
    parse_summarize none = false := by
  refine ⟨?_, ?_, rfl, rfl⟩
  · simpa [parse_include_images] using h
  · simpa [parse_summarize] using h

/-- C1 counterexample: for the concrete pdf-format request `pdfRequest`,
`create_presentation` IS invoked (the route calls it on line 351 before the
export-format check on line 361), refuting "deck assembly is never invoked";
moreover when `create_presentation` raises, the response is 500, not 501,
refuting "always yields HTTP 501". -/
theorem pdf_never_assembles_counterexample :
    (generate pdfRequest (.ok "generated_ppt/AI_presentation.pptx")).deckAssembled = true ∧
    (generate pdfRequest (.error "boom")).status = 500 := by
  constructor <;> rfl

/-- C1 amended: for every request with `exportFormat = "pdf"` that passes
the topic/text-file validation, `create_presentation` is invoked; if it
returns normally the handler responds 501 with body
`{"error": "PDF export not implemented"}`, and if it raises the handler
responds 500 with the exception message. -/
theorem pdf_request_behavior (req : GenRequest) (deck : Except String String)
    (hv : optTruthy req.topic = true ∨ req.textFilePresent = true)
    (hf : req.exportFormat = some "pdf") :
    (generate req deck).deckAssembled = true ∧
    (∀ p, deck = .ok p →
      (generate req deck).status = 501 ∧
      (generate req deck).body = .jsonError "PDF export not implemented") ∧
    (∀ e, deck = .error e →
      (generate req deck).status = 500 ∧
      (generate req deck).body = .jsonError e) := by
  have hcond : (!optTruthy req.topic && !req.textFilePresent) = false := by
    rcases hv with h | h <;> simp [h]
  cases deck with
  | error e =>
    refine ⟨?_, ?_, ?_⟩ <;> simp [generate, hcond]
  | ok p =>
    refine ⟨?_, ?_, ?_⟩ <;> simp [generate, hcond, hf]

/-- Witness for the amended C1 at the concrete request `pdfRequest`. -/
theorem pdf_request_behavior_witness :
    (optTruthy pdfRequest.topic = true ∨ pdfRequest.textFilePresent = true) ∧
    pdfRequest.exportFormat = some "pdf" ∧
    ((generate pdfRequest (.ok "p")).deckAssembled = true ∧
     (generate pdfRequest (.ok "p")).status = 501) :=
  ⟨Or.inl (by decide), rfl,
   (pdf_request_behavior pdfRequest (.ok "p") (Or.inl (by decide)) rfl).1,
   ((pdf_request_behavior pdfRequest (.ok "p") (Or.inl (by decide)) rfl).2.1
      "p" rfl).1⟩

/-- C6: when both the `topic` form field and the `textFile` upload are
absent, the handler responds HTTP 400 with body
`{"error": "Topic or text file required"}` and `create_presentation` is not
called, whatever it would have done. -/
theorem missing_inputs_rejected (req : GenRequest) (deck : Except String String)
    (h1 : req.topic = none) (h2 : req.textFilePresent = false) :
    generate req deck = ⟨400, .jsonError "Topic or text file required", false⟩ := by
  simp [generate, optTruthy, h1, h2]

/-- Witness for C6 at a concrete empty request. -/
theorem missing_inputs_rejected_witness :
    ({ pdfRequest with topic := none } : GenRequest).topic = none ∧
    ({ pdfRequest with topic := none } : GenRequest).textFilePresent = false ∧
    generate { pdfRequest with topic := none } (.ok "p") =
      ⟨400, .jsonError "Topic or text file required", false⟩ :=
  ⟨rfl, rfl, missing_inputs_rejected { pdfRequest with topic := none } (.ok "p") rfl rfl⟩

/-- Witness for C9 at the concrete value "True" (capitalised). -/
theorem flag_parsing_exact_witness :
    "True" ≠ "true" ∧
    (parse_include_images (some "True") = false ∧
     parse_summarize (some "True") = false) :=
  ⟨by decide,
   (flag_parsing_exact "True" (by decide)).1,
   (flag_parsing_exact "True" (by decide)).2.1⟩

/-! ### Helper lemmas for the slide-title claims -/

theorem append_append_ne_nil (c x y : List Char) (hx : x ≠ []) :
    c ++ x ++ y ≠ [] := by
  intro h
  exact hx (List.append_eq_nil.mp (List.append_eq_nil.mp h).1).2

theorem overviewTitle_ne_nil (c : List Char) (n : Nat) :
    overviewTitle c n ≠ [] :=
  append_append_ne_nil _ _ _ (by decide)

theorem slidePlaceholder_ne_nil (c : List Char) (n : Nat) :
    slidePlaceholder c n ≠ [] :=
  append_append_ne_nil _ _ _ (by decide)

theorem process_titles_length_le (t : List Char) :
    (process_titles t).length ≤ 3 := by
  simp only [process_titles, List.length_take]
  exact min_le_left _ _

theorem mem_process_titles_ne_nil (t : List Char) (s : List Char)
    (h : s ∈ process_titles t) : s ≠ [] := by
  have h1 : s ∈ ((splitOnNl (pyStrip t)).map pyStrip).filter
      (fun l => !l.isEmpty) := List.mem_of_mem_take h
  have h2 := (List.mem_filter.mp h1).2
  cases s with
  | nil => simp at h2
  | cons a as => simp

theorem padTitles_nil (c : List Char) :
    padTitles c 3 [] =
      [overviewTitle c 1, overviewTitle c 2, overviewTitle c 3] := rfl

theorem padTitles_one (c a : List Char) :
    padTitles c 3 [a] = [a, overviewTitle c 2, overviewTitle c 3] := rfl

theorem padTitles_two (c a b : List Char) :
    padTitles c 3 [a, b] = [a, b, overviewTitle c 3] := rfl

theorem padTitles_full (c a b d : List Char) (rest : List (List Char)) :
    padTitles c 3 (a :: b :: d :: rest) = a :: b :: d :: rest := by
  unfold padTitles
  split
  · next h => exfalso; simp only [List.length_cons] at h; omega
  · rfl

/-- The padding loop turns any list of at most 3 non-empty titles into
exactly 3 non-empty titles, filling positions `≥ length` with
`overviewTitle` placeholders. -/
theorem padded_spec (content : List Char) (ts : List (List Char))
    (hle : ts.length ≤ 3) (hne : ∀ s ∈ ts, s ≠ []) :
    ((padTitles content 3 ts).take 3).length = 3 ∧
    (∀ t ∈ (padTitles content 3 ts).take 3, t ≠ []) ∧
    (∀ i, ts.length ≤ i → i < 3 →
      ((padTitles content 3 ts).take 3).getD i [] =
        overviewTitle content (i + 1)) := by
  match ts with
  | [] =>
    rw [padTitles_nil]
    refine ⟨rfl, ?_, ?_⟩
    · intro t ht
      simp only [List.take, List.mem_cons, List.not_mem_nil, or_false] at ht
      rcases ht with rfl | rfl | rfl <;> exact overviewTitle_ne_nil _ _
    · intro i h0 h3
      interval_cases i <;> rfl
  | [a] =>
    rw [padTitles_one]
    refine ⟨rfl, ?_, ?_⟩
    · intro t ht
      simp only [List.take, List.mem_cons, List.not_mem_nil, or_false] at ht
      rcases ht with rfl | rfl | rfl
      · exact hne _ (by simp)
      · exact overviewTitle_ne_nil _ _
      · exact overviewTitle_ne_nil _ _
    · intro i h0 h3
      simp only [List.length_cons, List.length_nil] at h0
      interval_cases i <;> rfl
  | [a, b] =>
    rw [padTitles_two]
    refine ⟨rfl, ?_, ?_⟩
    · intro t ht
      simp only [List.take, List.mem_cons, List.not_mem_nil, or_false] at ht
      rcases ht with rfl | rfl | rfl
      · exact hne _ (by simp)
      · exact hne _ (by simp)
      · exact overviewTitle_ne_nil _ _
    · intro i h0 h3
      simp only [List.length_cons, List.length_nil] at h0
      interval_cases i
      rfl
  | a :: b :: d :: rest =>
    have hr : rest = [] := by
      simp only [List.length_cons] at hle
      exact List.length_eq_zero.mp (by omega)
    subst hr
    rw [padTitles_full]
    refine ⟨rfl, ?_, ?_⟩
    · intro t ht
      simp only [List.take, List.mem_cons, List.not_mem_nil, or_false] at ht
      rcases ht with rfl | rfl | rfl
      · exact hne _ (by simp)
      · exact hne _ (by simp)
      · exact hne _ (by simp)
    · intro i h0 h3
      exfalso
      simp only [List.length_cons, List.length_nil] at h0
      omega

/-- C2: for every content string and every upstream outcome,
`generate_slide_titles` returns exactly 3 non-empty strings; on upstream
failure it returns the triplet `f"{content} Slide 1/2/3"`, and when the
response parses to fewer than 3 titles the positions past the parsed ones
are filled with `f"{content} Overview {index}"` placeholders (1-based). -/
theorem generate_slide_titles_spec (content : List Char)
    (up : Except String (List Char)) :
    (generate_slide_titles content up).length = 3 ∧
    (∀ t ∈ generate_slide_titles content up, t ≠ []) ∧
    (∀ e, up = .error e →
      generate_slide_titles content up =
        [slidePlaceholder content 1, slidePlaceholder content 2,
         slidePlaceholder content 3]) ∧
    (∀ text, up = .ok text →
      ∀ i, (process_titles (pyStrip text)).length ≤ i → i < 3 →
        (generate_slide_titles content up).getD i [] =
          overviewTitle content (i + 1)) := by
  cases up with
  | error e =>
    refine ⟨rfl, ?_, ?_, ?_⟩
    · intro t ht
      simp only [generate_slide_titles, List.mem_cons, List.not_mem_nil,
        or_false] at ht
      rcases ht with rfl | rfl | rfl <;> exact slidePlaceholder_ne_nil _ _
    · intro _ _; rfl
    · intro _ h; exact absurd h (by simp)
  | ok text =>
    have h := padded_spec content (process_titles (pyStrip text))
      (process_titles_length_le _)
      (fun s hs => mem_process_titles_ne_nil _ s hs)
    refine ⟨h.1, h.2.1, ?_, ?_⟩
    · intro _ he; exact absurd he (by simp)
    · intro t' ht' i h1 h2
      cases ht'
      exact h.2.2 i h1 h2

/-- Witness for C2: on failure the triplet for content "Mars"; on a
one-line response, position 1 is the "Mars Overview 2" placeholder. -/
theorem generate_slide_titles_spec_witness :
    generate_slide_titles "Mars".data (.error "boom") =
      [slidePlaceholder "Mars".data 1, slidePlaceholder "Mars".data 2,
       slidePlaceholder "Mars".data 3] ∧
    (generate_slide_titles "Mars".data (.ok "Only one title".data)).getD 1 [] =
      overviewTitle "Mars".data 2 :=
  ⟨(generate_slide_titles_spec "Mars".data (.error "boom")).2.2.1 "boom" rfl,
   (generate_slide_titles_spec "Mars".data
      (.ok "Only one title".data)).2.2.2 "Only one title".data rfl 1
      (by decide) (by decide)⟩

/-! ### Helper lemmas for bullet-point idempotence (C4) -/

theorem head_of_dropWhile (p : Char → Bool) (l : List Char) (c : Char)
    (h : (l.dropWhile p).head? = some c) : p c = false := by
  induction l with
  | nil => simp [List.dropWhile] at h
  | cons a l ih =>
    rw [List.dropWhile_cons] at h
    by_cases ha : p a = true
    · rw [if_pos ha] at h; exact ih h
    · rw [if_neg ha] at h
      simp only [List.head?_cons, Option.some.injEq] at h
      subst h
      cases hpa : p a with
      | false => rfl
      | true => exact absurd hpa ha

theorem dropWhile_eq_self_of_head (p : Char → Bool) (l : List Char)
    (h : ∀ c, l.head? = some c → p c = false) : l.dropWhile p = l := by
  cases l with
  | nil => rfl
  | cons a l =>
    have ha := h a rfl
    rw [List.dropWhile_cons, if_neg (by simp [ha])]

theorem dropWhile_imp_eq_self (p q : Char → Bool) (l : List Char)
    (himp : ∀ c, q c = true → p c = true) :
    (l.dropWhile p).dropWhile q = l.dropWhile p := by
  apply dropWhile_eq_self_of_head
  intro c hc
  have hp := head_of_dropWhile p l c hc
  cases hq : q c with
  | false => rfl
  | true => exact absurd (himp c hq) (by simp [hp])

theorem stripTrail_idem (l : List Char) :
    stripTrail (stripTrail l) = stripTrail l := by
  induction l with
  | nil => rfl
  | cons c cs ih =>
    by_cases ht : (stripTrail cs).isEmpty = true
    · by_cases hc : isPySpace c = true
      · simp [stripTrail, ht, hc]
      · have hc' : isPySpace c = false := by simpa using hc
        simp [stripTrail, ht, hc']
    · have ht' : (stripTrail cs).isEmpty = false := by simpa using ht
      simp [stripTrail, ht', ih]

theorem head?_stripTrail (l : List Char) :
    stripTrail l = [] ∨ (stripTrail l).head? = l.head? := by
  cases l with
  | nil => exact Or.inl rfl
  | cons c cs =>
    by_cases ht : (stripTrail cs).isEmpty = true
    · by_cases hc : isPySpace c = true
      · left; simp [stripTrail, ht, hc]
      · have hc' : isPySpace c = false := by simpa using hc
        right; simp [stripTrail, ht, hc']
    · have ht' : (stripTrail cs).isEmpty = false := by simpa using ht
      right; simp [stripTrail, ht']

theorem mem_stripTrail (l : List Char) (c : Char) (h : c ∈ stripTrail l) :
    c ∈ l := by
  induction l with
  | nil => simp [stripTrail] at h
  | cons a as ih =>
    by_cases ht : (stripTrail as).isEmpty = true
    · by_cases ha : isPySpace a = true
      · simp [stripTrail, ht, ha] at h
      · have ha' : isPySpace a = false := by simpa using ha
        simp [stripTrail, ht, ha'] at h
        simp [h]
    · have ht' : (stripTrail as).isEmpty = false := by simpa using ht
      simp only [stripTrail, ht', Bool.false_eq_true, if_false,
        List.mem_cons] at h
      rcases h with rfl | h
      · exact List.mem_cons_self _ _
      · exact List.mem_cons_of_mem _ (ih h)

theorem head_of_pyStrip (l : List Char) (c : Char)
    (h : (pyStrip l).head? = some c) : isPySpace c = false := by
  unfold pyStrip stripLead at h
  rcases head?_stripTrail (l.dropWhile isPySpace) with he | hh
  · rw [he] at h; cases h
  · rw [hh] at h
    exact head_of_dropWhile isPySpace l c h

theorem stripLead_pyStrip (l : List Char) :
    stripLead (pyStrip l) = pyStrip l :=
  dropWhile_eq_self_of_head _ _ (fun c hc => head_of_pyStrip l c hc)

theorem pyStrip_idem (l : List Char) : pyStrip (pyStrip l) = pyStrip l := by
  have h1 : pyStrip (pyStrip l) = stripTrail (stripLead (pyStrip l)) := rfl
  rw [h1, stripLead_pyStrip]
  exact stripTrail_idem _

theorem mem_pyStrip (l : List Char) (c : Char) (h : c ∈ pyStrip l) :
    c ∈ l :=
  List.Sublist.mem (mem_stripTrail _ _ h) (List.dropWhile_sublist _)

theorem sp_imp_junk (c : Char) (h : isPySpace c = true) :
    isLeadJunk c = true := by
  simp [isLeadJunk, h]

theorem head_of_cleanBullet (u : List Char) (c : Char)
    (h : (cleanBullet u).head? = some c) : isLeadJunk c = false := by
  unfold cleanBullet pyStrip stripLead at h
  have hsw : ((u.filter (fun c => !isBracketStar c)).dropWhile
      isLeadJunk).dropWhile isPySpace =
      (u.filter (fun c => !isBracketStar c)).dropWhile isLeadJunk :=
    dropWhile_imp_eq_self isLeadJunk isPySpace _ sp_imp_junk
  rw [hsw] at h
  rcases head?_stripTrail ((u.filter (fun c => !isBracketStar c)).dropWhile
      isLeadJunk) with he | hh
  · rw [he] at h; cases h
  · rw [hh] at h
    exact head_of_dropWhile isLeadJunk _ c h

theorem stripTrail_cleanBullet (u : List Char) :
    stripTrail (cleanBullet u) = cleanBullet u := by
  unfold cleanBullet pyStrip
  exact stripTrail_idem _

theorem stripLead_cleanBullet (u : List Char) :
    stripLead (cleanBullet u) = cleanBullet u := by
  apply dropWhile_eq_self_of_head
  intro c hc
  have hj := head_of_cleanBullet u c hc
  cases hs : isPySpace c with
  | false => rfl
  | true => rw [sp_imp_junk c hs] at hj; cases hj

theorem pyStrip_cleanBullet (u : List Char) :
    pyStrip (cleanBullet u) = cleanBullet u := by
  have h1 : pyStrip (cleanBullet u) =
      stripTrail (stripLead (cleanBullet u)) := rfl
  rw [h1, stripLead_cleanBullet]
  exact stripTrail_cleanBullet u

theorem dropJunk_cleanBullet (u : List Char) :
    (cleanBullet u).dropWhile isLeadJunk = cleanBullet u :=
  dropWhile_eq_self_of_head _ _ (fun c hc => head_of_cleanBullet u c hc)

theorem mem_cleanBullet (u : List Char) (c : Char)
    (h : c ∈ cleanBullet u) : c ∈ u := by
  have h1 := mem_pyStrip _ _ h
  have h2 : c ∈ u.filter (fun c => !isBracketStar c) :=
    List.Sublist.mem h1 (List.dropWhile_sublist _)
  exact (List.mem_filter.mp h2).1

theorem mem_cleanBullet_not_bracketStar (u : List Char) (c : Char)
    (h : c ∈ cleanBullet u) : isBracketStar c = false := by
  have h1 := mem_pyStrip _ _ h
  have h2 : c ∈ u.filter (fun c => !isBracketStar c) :=
    List.Sublist.mem h1 (List.dropWhile_sublist _)
  have h3 := (List.mem_filter.mp h2).2
  simpa using h3

/-- The line-cleaning step of `process_bullet_points` fixes its own
outputs: a cleaned `'- '`-prefixed line passes through unchanged. -/
theorem bulletLine_fix (s : List Char) :
    bulletLine ('-' :: ' ' :: cleanBullet s) =
      some ('-' :: ' ' :: cleanBullet s) := by
  by_cases ht : cleanBullet s = []
  · rw [ht]; decide
  · have hne : (cleanBullet s).isEmpty = false := by
      cases h' : cleanBullet s with
      | nil => exact absurd h' ht
      | cons a as => rfl
    have hsl : stripLead ('-' :: ' ' :: cleanBullet s) =
        '-' :: ' ' :: cleanBullet s := by
      have hd : isPySpace '-' = false := by decide
      simp [stripLead, List.dropWhile_cons, hd]
    have h3 : stripTrail ('-' :: ' ' :: cleanBullet s) =
        '-' :: ' ' :: cleanBullet s := by
      simp [stripTrail, stripTrail_cleanBullet s, hne]
    have hps : pyStrip ('-' :: ' ' :: cleanBullet s) =
        '-' :: ' ' :: cleanBullet s := by
      unfold pyStrip
      rw [hsl]; exact h3
    have hfil : ('-' :: ' ' :: cleanBullet s).filter
        (fun c => !isBracketStar c) = '-' :: ' ' :: cleanBullet s := by
      apply List.filter_eq_self.mpr
      intro a ha
      rcases List.mem_cons.mp ha with rfl | ha'
      · decide
      rcases List.mem_cons.mp ha' with rfl | ha''
      · decide
      · simpa using mem_cleanBullet_not_bracketStar s a ha''
    have hdw : ('-' :: ' ' :: cleanBullet s).dropWhile isLeadJunk =
        cleanBullet s := by
      have h1 : isLeadJunk '-' = true := by decide
      have h2 : isLeadJunk ' ' = true := by decide
      simp [List.dropWhile_cons, h1, h2, dropJunk_cleanBullet s]
    have hcb : cleanBullet ('-' :: ' ' :: cleanBullet s) = cleanBullet s := by
      have h0 : cleanBullet ('-' :: ' ' :: cleanBullet s) =
          pyStrip ((('-' :: ' ' :: cleanBullet s).filter
            (fun c => !isBracketStar c)).dropWhile isLeadJunk) := rfl
      rw [h0, hfil, hdw, pyStrip_cleanBullet]
    simp only [bulletLine, hps, hcb, List.isEmpty_cons, Bool.false_eq_true,
      if_false]

theorem splitOnNl_ne_nil (l : List Char) : splitOnNl l ≠ [] := by
  cases l with
  | nil => simp [splitOnNl]
  | cons c cs =>
    by_cases hc : c = '\n'
    · simp [splitOnNl, hc]
    · rw [splitOnNl, if_neg hc]
      cases h : splitOnNl cs with
      | nil => simp [consHead]
      | cons l0 ls => simp [consHead]

theorem no_nl_of_mem_splitOnNl (l : List Char) :
    ∀ s ∈ splitOnNl l, '\n' ∉ s := by
  induction l with
  | nil =>
    intro s hs
    simp only [splitOnNl, List.mem_singleton] at hs
    subst hs; simp
  | cons c cs ih =>
    intro s hs
    by_cases hc : c = '\n'
    · rw [splitOnNl, if_pos hc] at hs
      rcases List.mem_cons.mp hs with rfl | hs'
      · simp
      · exact ih s hs'
    · rw [splitOnNl, if_neg hc] at hs
      rcases hsp : splitOnNl cs with - | ⟨l0, ls⟩
      · exact absurd hsp (splitOnNl_ne_nil cs)
      · rw [hsp, consHead] at hs
        rcases List.mem_cons.mp hs with rfl | hs'
        · intro hmem
          rcases List.mem_cons.mp hmem with heq | h2
          · exact hc heq.symm
          · exact ih l0 (by rw [hsp]; exact List.mem_cons_self _ _) h2
        · exact ih s (by rw [hsp]; exact List.mem_cons_of_mem _ hs')

theorem splitOnNl_no_nl (a : List Char) (h : '\n' ∉ a) :
    splitOnNl a = [a] := by
  induction a with
  | nil => rfl
  | cons c cs ih =>
    have hc : ¬ c = '\n' := by
      intro e; subst e; exact h (List.mem_cons_self _ _)
    have hcs : '\n' ∉ cs := fun m => h (List.mem_cons_of_mem _ m)
    rw [splitOnNl, if_neg hc, ih hcs, consHead]

theorem splitOnNl_append (a rest : List Char) (h : '\n' ∉ a) :
    splitOnNl (a ++ '\n' :: rest) = a :: splitOnNl rest := by
  induction a with
  | nil =>
    simp only [List.nil_append]
    rw [splitOnNl, if_pos rfl]
  | cons c cs ih =>
    have hc : ¬ c = '\n' := by
      intro e; subst e; exact h (List.mem_cons_self _ _)
    have hcs : '\n' ∉ cs := fun m => h (List.mem_cons_of_mem _ m)
    simp only [List.cons_append]
    rw [splitOnNl, if_neg hc, ih hcs, consHead]

theorem splitOnNl_joinNl (L : List (List Char)) (hne : L ≠ [])
    (h : ∀ s ∈ L, '\n' ∉ s) : splitOnNl (joinNl L) = L := by
  induction L with
  | nil => exact absurd rfl hne
  | cons a L ih =>
    cases L with
    | nil =>
      rw [joinNl]
      exact splitOnNl_no_nl a (h a (List.mem_cons_self _ _))
    | cons b L' =>
      rw [joinNl, splitOnNl_append _ _ (h a (List.mem_cons_self _ _)),
        ih (by simp) (fun s hs => h s (List.mem_cons_of_mem _ hs))]

theorem filterMap_eq_self_of (f : List Char → Option (List Char))
    (L : List (List Char)) (h : ∀ a ∈ L, f a = some a) :
    L.filterMap f = L := by
  induction L with
  | nil => rfl
  | cons a L ih =>
    rw [List.filterMap_cons_some (h a (List.mem_cons_self _ _)),
      ih (fun b hb => h b (List.mem_cons_of_mem _ hb))]

/-- Every element produced by the bullet-cleaning pass has the cleaned
`'- '`-prefixed shape and contains no newline. -/
theorem bullet_output_form (x : List Char) :
    ∀ out ∈ (splitOnNl x).filterMap bulletLine,
      (∃ s, out = '-' :: ' ' :: cleanBullet s) ∧ '\n' ∉ out := by
  intro out hout
  rcases List.mem_filterMap.mp hout with ⟨line, hline, hbl⟩
  have hform : out = '-' :: ' ' :: cleanBullet (pyStrip line) := by
    simp only [bulletLine] at hbl
    split at hbl
    · cases hbl
    · exact (Option.some.inj hbl).symm
  refine ⟨⟨pyStrip line, hform⟩, ?_⟩
  rw [hform]
  intro hmem
  rcases List.mem_cons.mp hmem with h1 | hmem'
  · exact absurd h1 (by decide)
  rcases List.mem_cons.mp hmem' with h2 | hmem''
  · exact absurd h2 (by decide)
  · exact no_nl_of_mem_splitOnNl x line hline
      (mem_pyStrip _ _ (mem_cleanBullet _ _ hmem''))

/-- `process_bullet_points` is idempotent on every input. -/
theorem process_bullet_points_idem (x : List Char) :
    process_bullet_points (process_bullet_points x) =
      process_bullet_points x := by
  unfold process_bullet_points
  cases hL : (splitOnNl x).filterMap bulletLine with
  | nil => rfl
  | cons a as =>
    rw [splitOnNl_joinNl (a :: as) (by simp)
        (fun s hs => (bullet_output_form x s (by rw [hL]; exact hs)).2),
      filterMap_eq_self_of bulletLine (a :: as) ?_]
    intro b hb
    obtain ⟨s, rfl⟩ := (bullet_output_form x b (by rw [hL]; exact hb)).1
    exact bulletLine_fix s

/-- C4: `process_bullet_points` is idempotent on already-clean
dash-bulleted input: for every string whose non-empty lines already start
with `"- "`, applying it twice yields the same output as applying it once.
(The proof factors through idempotence on all inputs,
`process_bullet_points_idem`.) -/
theorem process_bullet_points_idem_on_clean (x : List Char)
    (_h : ∀ line ∈ splitOnNl x, line ≠ [] →
      leadsWith "- ".data line = true) :
    process_bullet_points (process_bullet_points x) =
      process_bullet_points x :=
  process_bullet_points_idem x

/-- Witness for C4 on the concrete clean input "- alpha\n- beta". -/
theorem process_bullet_points_idem_on_clean_witness :
    (∀ line ∈ splitOnNl "- alpha\n- beta".data, line ≠ [] →
      leadsWith "- ".data line = true) ∧
    process_bullet_points (process_bullet_points "- alpha\n- beta".data) =
      process_bullet_points "- alpha\n- beta".data :=
  ⟨by decide,
   process_bullet_points_idem_on_clean "- alpha\n- beta".data (by decide)⟩

/-- C3 counterexample: on the image slide (`i = 1`, images requested) the
body text goes into the layout-1 content placeholder and no 5-inch textbox
is created (the computed `content_width` is unused in that branch), so
"when that slide carries an image its body text box is placed at the
reduced left-half width (5 inches)" fails. -/
theorem image_slide_width_counterexample :
    (buildContentSlide true false false imgEnvNoKey
        (Except.ok "body".data) 1 "T".data).hasImage = true ∧
    (buildContentSlide true false false imgEnvNoKey
        (Except.ok "body".data) 1 "T".data).usesPlaceholder = true ∧
    (buildContentSlide true false false imgEnvNoKey
        (Except.ok "body".data) 1 "T".data).textboxWidth ≠ some 5 := by
  refine ⟨rfl, rfl, ?_⟩
  decide

/-- C3 amended: for each content slide index `i ∈ {1,2}`, `hasImage` holds
exactly when `i = 1` and images are requested, `hasChart` exactly when
tabular data is supplied and `i = 2`, and never both on the same slide; the
computed content width is 5 inches when either flag holds and 9 otherwise,
but a textbox of that width is actually created only when the slide has no
image: a chart slide's body textbox is 5 inches wide, a plain slide's is 9
inches, and an image slide's body text goes into the layout's content
placeholder (no textbox is added, the computed width being unused). -/
theorem content_slide_flags_and_width (inc csv summ : Bool)
    (imgEnv : ImageEnv) (up : Except String (List Char))
    (i : Nat) (title : List Char) (hi : i = 1 ∨ i = 2) :
    ((buildContentSlide inc csv summ imgEnv up i title).hasImage = true ↔
        (i = 1 ∧ inc = true)) ∧
    ((buildContentSlide inc csv summ imgEnv up i title).hasChart = true ↔
        (csv = true ∧ i = 2)) ∧
    ¬((buildContentSlide inc csv summ imgEnv up i title).hasImage = true ∧
      (buildContentSlide inc csv summ imgEnv up i title).hasChart = true) ∧
    (buildContentSlide inc csv summ imgEnv up i title).contentWidth =
      (if (buildContentSlide inc csv summ imgEnv up i title).hasImage ||
          (buildContentSlide inc csv summ imgEnv up i title).hasChart
       then 5 else 9) ∧
    ((buildContentSlide inc csv summ imgEnv up i title).hasImage = true →
      (buildContentSlide inc csv summ imgEnv up i title).usesPlaceholder = true ∧
      (buildContentSlide inc csv summ imgEnv up i title).textboxWidth = none) ∧
    ((buildContentSlide inc csv summ imgEnv up i title).hasImage = false →
      (buildContentSlide inc csv summ imgEnv up i title).usesPlaceholder = false ∧
      (buildContentSlide inc csv summ imgEnv up i title).textboxWidth =
        some (if (buildContentSlide inc csv summ imgEnv up i title).hasChart
              then 5 else 9)) := by
  rcases hi with h | h <;> subst h <;>
    cases inc <;> cases csv <;>
    simp [buildContentSlide]

/-- Witness for the amended C3 at the concrete chart slide `i = 2` with
tabular data supplied: the body textbox is 5 inches wide. -/
theorem content_slide_flags_and_width_witness :
    ((2 : Nat) = 1 ∨ (2 : Nat) = 2) ∧
    (buildContentSlide true true false imgEnvNoKey
        (Except.ok "x".data) 2 "T".data).textboxWidth = some 5 :=
  ⟨Or.inr rfl,
   ((content_slide_flags_and_width true true false imgEnvNoKey
       (Except.ok "x".data) 2 "T".data (Or.inr rfl)).2.2.2.2.2 rfl).2⟩

/-- C7: `generate_image` never raises to its caller (it is a total
function), and under each of the enumerated failure conditions (credential
unset, HTTP call failed, insufficient balance signalled, decoding failed)
it returns `none`; the image slide is then produced with its text but no
picture shape. -/
theorem generate_image_failure (env : ImageEnv)
    (h : imageFailCond env = true) :
    generate_image env = none ∧
    ∀ (csv summ : Bool) (up : Except String (List Char)) (title : List Char),
      (buildContentSlide true csv summ env up 1 title).hasImage = true ∧
      (buildContentSlide true csv summ env up 1 title).imageAdded = false ∧
      (buildContentSlide true csv summ env up 1 title).text =
        generate_slide_content true summ up := by
  have hnone : generate_image env = none := by
    by_cases hk : (env.stabilityApiKey.getD "" == "") = true
    · simp [generate_image, hk]
    · cases ho : env.httpOutcome with
      | error e => simp [generate_image, hk, ho]
      | ok r =>
        simp only [imageFailCond, ho, Bool.or_eq_true, hk, false_or] at h
        rcases h with hb | hd
        · simp [generate_image, hk, ho, hb]
        · cases hc : containsSub balanceMarker (lowerChars r.text) <;>
            simp_all [generate_image, Option.isNone_iff_eq_none]
  refine ⟨hnone, fun csv summ up title => ?_⟩
  refine ⟨rfl, ?_, ?_⟩ <;> simp [buildContentSlide, hnone]

/-- Witness for C7 at the concrete environment with no credential. -/
theorem generate_image_failure_witness :
    imageFailCond imgEnvNoKey = true ∧
    generate_image imgEnvNoKey = none ∧
    (buildContentSlide true false false imgEnvNoKey
        (Except.ok "x".data) 1 "T".data).imageAdded = false :=
  ⟨by decide,
   (generate_image_failure imgEnvNoKey (by decide)).1,
   ((generate_image_failure imgEnvNoKey (by decide)).2
      false false (Except.ok "x".data) "T".data).2.1⟩

/-- C10: in `generate_slide_content` the `summarize` flag takes precedence
over `has_image`: with `summarize` true the two-short-paragraph summarize
template is selected regardless of `has_image` and the raw (stripped)
response is returned; bullet post-processing (`process_bullet_points`) is
applied to the upstream response exactly when both `summarize` and
`has_image` are false. -/
theorem summarize_precedence (h s : Bool) (t : List Char) :
    content_mode h true = .summarizeTwoParas ∧
    (s = true → generate_slide_content h s (.ok t) = pyStrip t) ∧
    (h = false → s = false →
      generate_slide_content h s (.ok t) = process_bullet_points (pyStrip t)) ∧
    ((h = true ∨ s = true) →
      generate_slide_content h s (.ok t) = pyStrip t) := by
  cases h <;> cases s <;>
    simp [content_mode, generate_slide_content]

/-- Witness for C10 at `has_image = true`, `summarize = true`. -/
theorem summarize_precedence_witness :
    content_mode true true = .summarizeTwoParas ∧
    generate_slide_content true true (.ok "x".data) = pyStrip "x".data :=
  ⟨(summarize_precedence true true "x".data).1,
   (summarize_precedence true true "x".data).2.1 rfl⟩

end AIPresentation
